import Mathlib

/-!
Shallow embedding of the rpk-backend authentication core:
the Sequelize models `User` (src/models/User.js) and `RefreshToken`,
and the route handlers of src/routes/userRoutes.js
(signup, verify-email, login, forgot-password, reset-password, refresh-token)
plus the profile route GET /me.

Conventions:
  - Time is a `Nat` (seconds) passed explicitly to every operation (`now`).
  - JWTs are modelled as their decoded content: HMAC-signed JWTs are a
    deterministic, injective function of (payload, iat, exp, secret), so two
    token strings are equal iff these components are equal.
  - bcrypt hashing is modelled by the injective constructor `PwVal.hashed`;
    `bcrypt.compare` succeeds exactly on the preimage.
  - The durable store is the state `St` (a user table and a refresh-token
    table); Sequelize calls become explicit state-passing functions.
  - HTTP responses are modelled by their caller-visible content
    (status, success flag, message, and any user projection / tokens).
-/

namespace Rpk

/-- The two signing secrets of the source: `process.env.JWT_SECRET`
(used for access tokens and for the 1-hour action tokens) and
`process.env.REFRESH_TOKEN_SECRET`. -/
inductive Secret
  | access
  | refreshSecret
deriving DecidableEq

/-- A signed JWT, modelled by its decoded content.  `userId` is `none` for
the signup verification tokens, whose payload is `{ email }` only. -/
structure Jwt where
  userId : Option Nat
  email : String
  iat : Nat
  exp : Nat
  secret : Secret
deriving DecidableEq

/-- `jwt.sign(claims, secret, { expiresIn })` at time `now`. -/
def signJwt (userId : Option Nat) (email : String) (secret : Secret)
    (lifetime : Nat) (now : Nat) : Jwt :=
  { userId := userId, email := email, iat := now, exp := now + lifetime,
    secret := secret }

/-- "15m" -/
def accessLifetime : Nat := 15 * 60
/-- "7d" (also the `expiresAt` offset computed with `setDate(getDate()+7)`) -/
def refreshLifetime : Nat := 7 * 24 * 60 * 60
/-- "1h" -/
def actionLifetime : Nat := 60 * 60

inductive VerifyRes
  | ok (decoded : Jwt)
  | expiredTok
  | invalidTok
deriving DecidableEq

/-- `jwt.verify(token, secret)` at time `now`: `TokenExpiredError` when
`now` has reached `exp`, `JsonWebTokenError` (here `invalidTok`) when the
signature does not check out, otherwise the decoded claims. -/
def verifyJwt (t : Jwt) (secret : Secret) (now : Nat) : VerifyRes :=
  if t.secret ≠ secret then .invalidTok
  else if t.exp ≤ now then .expiredTok
  else .ok t

/-- A stored password value.  The `User.beforeSave` hook guarantees only
`hashed` values are ever persisted, but the type can represent an unhashed
write so that this is a theorem, not a tautology. -/
inductive PwVal
  | plain (v : String)
  | hashed (v : String)
deriving DecidableEq

/-- `bcrypt.hash(pw, 8)` (the salted digest, modelled injectively). -/
def bcryptHash (pw : String) : PwVal := .hashed pw

/-- `bcrypt.compare(pw, stored)`: succeeds exactly when `stored` is the
hash of `pw`; a non-hash value never compares true. -/
def bcryptCompare (pw : String) (stored : PwVal) : Bool :=
  match stored with
  | .hashed v => pw == v
  | .plain _ => false

/-- A row of the `Users` table (src/models/User.js; `timestamps: true`). -/
structure UserRec where
  id : Nat
  name : String
  surname : String
  personalIdCode : String
  email : String
  password : PwVal
  isVerified : Bool
  verificationToken : Option Jwt
  createdAt : Nat
  updatedAt : Nat
deriving DecidableEq

/-- A row of the `RefreshTokens` table (src/models/RefreshToken.js). -/
structure RTRow where
  token : Jwt
  userId : Nat
  expiresAt : Nat
  isRevoked : Bool
  createdAt : Nat
  updatedAt : Nat
deriving DecidableEq

/-- The durable store. -/
structure St where
  users : List UserRec
  tokens : List RTRow
deriving DecidableEq

/-- `User.findOne({ where: { email } })` -/
def findUserByEmail (s : St) (e : String) : Option UserRec :=
  s.users.find? (fun u => u.email == e)

/-- `User.findOne({ where: { id } })` -/
def findUserById (s : St) (i : Nat) : Option UserRec :=
  s.users.find? (fun u => u.id == i)

/-- `RefreshToken.findOne({ where: { token, isRevoked: false } })` -/
def findActiveRefreshToken (s : St) (t : Jwt) : Option RTRow :=
  s.tokens.find? (fun r => r.token == t && !r.isRevoked)

/-- `RefreshToken.create({ token, userId, expiresAt })`.  The `token`
column is `unique`, so creation fails (`none`, a
`SequelizeUniqueConstraintError`) when any row already holds this token. -/
def createRefreshToken (s : St) (now : Nat) (t : Jwt) (uid : Nat)
    (expiresAt : Nat) : Option St :=
  if s.tokens.any (fun r => r.token == t) then none
  else some { s with tokens := s.tokens ++
    [{ token := t, userId := uid, expiresAt := expiresAt, isRevoked := false,
       createdAt := now, updatedAt := now }] }

/-- `savedToken.update({ isRevoked: true })`: rows are keyed by their
unique token string. -/
def revokeRefreshToken (s : St) (now : Nat) (t : Jwt) : St :=
  { s with tokens := s.tokens.map (fun r =>
      if r.token == t then { r with isRevoked := true, updatedAt := now }
      else r) }

/-- `user.update({ verificationToken })` (password unchanged, so the
`beforeSave` hook does not re-hash). -/
def updateUserVerificationToken (s : St) (now : Nat) (uid : Nat)
    (vt : Option Jwt) : St :=
  { s with users := s.users.map (fun u =>
      if u.id == uid then { u with verificationToken := vt, updatedAt := now }
      else u) }

/-- `user.update({ isVerified: true, verificationToken: null })` -/
def updateUserVerified (s : St) (now : Nat) (uid : Nat) : St :=
  { s with users := s.users.map (fun u =>
      if u.id == uid then
        { u with isVerified := true, verificationToken := none,
                 updatedAt := now }
      else u) }

/-- `user.update({ password, verificationToken: null })`: the changed
password passes through the `beforeSave` bcrypt hook. -/
def updateUserPasswordAndClearToken (s : St) (now : Nat) (uid : Nat)
    (pw : String) : St :=
  { s with users := s.users.map (fun u =>
      if u.id == uid then
        { u with password := bcryptHash pw, verificationToken := none,
                 updatedAt := now }
      else u) }

/-- JSON values appearing in response bodies. -/
inductive JVal
  | s (v : String)
  | n (v : Nat)
  | b (v : Bool)
  | null
  | jwt (t : Jwt)
  | pw (v : PwVal)
deriving DecidableEq

/-- The raw attribute map of a user instance (`this.get()`). -/
def userGet (u : UserRec) : List (String × JVal) :=
  [("id", .n u.id), ("name", .s u.name), ("surname", .s u.surname),
   ("personalIdCode", .s u.personalIdCode), ("email", .s u.email),
   ("password", .pw u.password), ("isVerified", .b u.isVerified),
   ("verificationToken",
      match u.verificationToken with | none => .null | some t => .jwt t),
   ("createdAt", .n u.createdAt), ("updatedAt", .n u.updatedAt)]

/-- `User.prototype.toJSON`: copy of `this.get()` with the `password`
key deleted. -/
def toJSON (u : UserRec) : List (String × JVal) :=
  (userGet u).eraseP (fun kv => kv.1 == "password")

/-- The hand-built user object of the signup responses. -/
def signupProjection (u : UserRec) : List (String × JVal) :=
  [("email", .s u.email), ("name", .s u.name), ("surname", .s u.surname),
   ("personalIdCode", .s u.personalIdCode), ("isVerified", .b u.isVerified)]

/-- The hand-built user object of the login response. -/
def loginProjection (u : UserRec) : List (String × JVal) :=
  [("name", .s u.name), ("surname", .s u.surname),
   ("personalIdCode", .s u.personalIdCode), ("email", .s u.email),
   ("isVerified", .b u.isVerified)]

/-- The hand-built user object of the verify-email response. -/
def verifyEmailProjection (u : UserRec) : List (String × JVal) :=
  [("email", .s u.email), ("isVerified", .b true)]

/-- Modelled from the spec: the password policy of
src/utils/passwordValidator.js, which is not part of the provided sources.
Spec section 4.4: "password policy: min 8 chars, upper+lower+digit+special".
-/
def passwordPolicyOk (pw : String) : Bool :=
  8 ≤ pw.data.length && pw.data.any Char.isUpper &&
    pw.data.any Char.isLower && pw.data.any Char.isDigit &&
    pw.data.any (fun c => !c.isAlphanum)

/-- Modelled from the spec: Sequelize's `isEmail` validator is an external
library; the spec (section 3) only requires a "validated format", modelled
minimally as containing an at sign. -/
def emailFormatOk (e : String) : Bool := e.data.any (fun c => c == '@')

/-- The `personalIdCode` column validators of src/models/User.js:
`isNumeric` and `len: [11, 11]`. -/
def personalIdOk (p : String) : Bool :=
  p.data.all Char.isDigit && p.data.length == 11

/-- Autoincrementing primary key for the next created user. -/
def nextUserId (s : St) : Nat :=
  s.users.foldr (fun u m => max u.id m) 0 + 1

/-- Access/refresh token pair returned by `generateTokens`. -/
structure TokPair where
  accessToken : Jwt
  refreshToken : Jwt
deriving DecidableEq

/-- `generateTokens(user)` of src/routes/userRoutes.js: sign a 15-minute
access token and a 7-day refresh token, persist the refresh-token row
(`expiresAt = now + 7 days`).  `none` is the store rejecting the insert
(unique token column). -/
def generateTokens (s : St) (now : Nat) (u : UserRec) :
    Option (TokPair × St) :=
  let accessToken := signJwt (some u.id) u.email .access accessLifetime now
  let refreshTok :=
    signJwt (some u.id) u.email .refreshSecret refreshLifetime now
  match createRefreshToken s now refreshTok u.id (now + refreshLifetime) with
  | none => none
  | some s1 => some (⟨accessToken, refreshTok⟩, s1)

/-- Caller-visible outcome of POST /refresh-token.  `success` carries the
body's access token and the cookie's new refresh token. -/
inductive RefreshRes
  | missing
  | invalid
  | expired
  | userNotFound
  | serverError
  | success (accessToken : Jwt) (cookieRefreshToken : Jwt)
deriving DecidableEq

/-- POST /refresh-token (sequential execution; each store call runs to
completion before the next).  Mirrors the source order: active-row lookup,
expiry check with lazy revocation, `jwt.verify`, user lookup,
`generateTokens` (which persists the new row), then revocation of the
presented row.  A `JsonWebTokenError` from `jwt.verify` is not special-cased
by the catch block and surfaces as the generic 500. -/
def refresh (s : St) (now : Nat) (cookie : Option Jwt) : RefreshRes × St :=
  match cookie with
  | none => (.missing, s)
  | some tok =>
    match findActiveRefreshToken s tok with
    | none => (.invalid, s)
    | some savedToken =>
      if savedToken.expiresAt < now then
        (.expired, revokeRefreshToken s now tok)
      else
        match verifyJwt tok .refreshSecret now with
        | .expiredTok => (.expired, s)
        | .invalidTok => (.serverError, s)
        | .ok decoded =>
          match s.users.find? (fun u => decoded.userId == some u.id) with
          | none => (.userNotFound, s)
          | some user =>
            match generateTokens s now user with
            | none => (.serverError, s)
            | some (toks, s1) =>
              (.success toks.accessToken toks.refreshToken,
               revokeRefreshToken s1 now tok)

/-- Caller-visible outcome of POST /login. -/
inductive LoginRes
  | invalidCredentials
  | unverified
  | serverError
  | success (accessToken : Jwt) (cookieRefreshToken : Jwt)
      (user : List (String × JVal))
deriving DecidableEq

/-- POST /login: user lookup, verification check, bcrypt compare,
token issuance. -/
def login (s : St) (now : Nat) (email password : String) : LoginRes × St :=
  match findUserByEmail s email with
  | none => (.invalidCredentials, s)
  | some user =>
    if !user.isVerified then (.unverified, s)
    else if !bcryptCompare password user.password then
      (.invalidCredentials, s)
    else
      match generateTokens s now user with
      | none => (.serverError, s)
      | some (toks, s1) =>
        (.success toks.accessToken toks.refreshToken (loginProjection user),
         s1)

/-- A caller-visible HTTP outcome (status code, success flag, message). -/
structure HttpRes where
  status : Nat
  success : Bool
  message : String
deriving DecidableEq

/-- The message sent by POST /forgot-password in both the user-absent and
the user-present branch. -/
def forgotGenericMsg : String :=
  "If an account exists with this email, you will receive a password reset link"

/-- POST /forgot-password.  `notifierOk` is whether
`resend.emails.send` resolves; its rejection is caught by the handler's
catch block and answered with a 500 (the verification-token update has
already been persisted at that point). -/
def forgotPassword (s : St) (now : Nat) (email : String)
    (notifierOk : Bool) : HttpRes × St :=
  match findUserByEmail s email with
  | none => (⟨400, false, forgotGenericMsg⟩, s)
  | some user =>
    let resetToken := signJwt (some user.id) user.email .access
      actionLifetime now
    let s1 := updateUserVerificationToken s now user.id (some resetToken)
    if !notifierOk then
      (⟨500, false, "Error processing password reset request"⟩, s1)
    else
      (⟨200, true, forgotGenericMsg⟩, s1)

/-- POST /reset-password.  The handler destructures `{ token, password }`;
`jwt.verify` uses `JWT_SECRET`; a `JsonWebTokenError` (bad signature) is
not special-cased and surfaces as the generic 500.  `user.update` runs the
password column's `customValidator` (the password policy) before the
`beforeSave` hash hook: a policy-violating new password throws a
`SequelizeValidationError`, which the catch block answers with the generic
500 — nothing is persisted and the notifier is never called.  On a valid
password the update is persisted before the confirmation email is
attempted. -/
def resetPassword (s : St) (now : Nat) (token : Option Jwt)
    (password : Option String) (notifierOk : Bool) : HttpRes × St :=
  match token, password with
  | none, _ => (⟨400, false, "Token and new password are required"⟩, s)
  | _, none => (⟨400, false, "Token and new password are required"⟩, s)
  | some tok, some pw =>
    match verifyJwt tok .access now with
    | .expiredTok => (⟨400, false, "Password reset link has expired"⟩, s)
    | .invalidTok => (⟨500, false, "Error resetting password"⟩, s)
    | .ok decoded =>
      match s.users.find? (fun u =>
          u.email == decoded.email && u.verificationToken == some tok) with
      | none =>
        (⟨400, false, "Invalid or expired password reset link"⟩, s)
      | some user =>
        if !passwordPolicyOk pw then
          (⟨500, false, "Error resetting password"⟩, s)
        else
          let s1 := updateUserPasswordAndClearToken s now user.id pw
          if !notifierOk then (⟨500, false, "Error resetting password"⟩, s1)
          else (⟨200, true, "Password has been reset successfully"⟩, s1)

/-- Caller-visible outcome of POST /signup. -/
inductive SignupRes
  | alreadyVerified
  | resentVerification (user : List (String × JVal))
  | created (user : List (String × JVal))
  | validationError
  | serverError
deriving DecidableEq

/-- POST /signup.  An existing verified email is a 400; an existing
unverified email gets a fresh 1-hour verification token persisted into
`verificationToken` (no second row); a fresh email is validated and
created (password hashed by the `beforeSave` hook).  `notifierOk = false`
(rejected `resend.emails.send`) surfaces as the generic 500, after the
user row / token update has been persisted. -/
def signup (s : St) (now : Nat)
    (email password name surname personalIdCode : String)
    (notifierOk : Bool) : SignupRes × St :=
  match findUserByEmail s email with
  | some existingUser =>
    if existingUser.isVerified then (.alreadyVerified, s)
    else
      let verificationToken := signJwt none email .access actionLifetime now
      let s1 := updateUserVerificationToken s now existingUser.id
        (some verificationToken)
      if !notifierOk then (.serverError, s1)
      else (.resentVerification (signupProjection existingUser), s1)
  | none =>
    let verificationToken := signJwt none email .access actionLifetime now
    if !(emailFormatOk email && personalIdOk personalIdCode &&
         passwordPolicyOk password) then (.validationError, s)
    else if s.users.any (fun u => u.personalIdCode == personalIdCode) then
      (.validationError, s)
    else
      let user : UserRec :=
        { id := nextUserId s, name := name, surname := surname,
          personalIdCode := personalIdCode, email := email,
          password := bcryptHash password, isVerified := false,
          verificationToken := some verificationToken,
          createdAt := now, updatedAt := now }
      let s1 := { s with users := s.users ++ [user] }
      if !notifierOk then (.serverError, s1)
      else (.created (signupProjection user), s1)

/-- Caller-visible outcome of POST /verify-email. -/
inductive VerifyEmailRes
  | missingToken
  | expiredLink
  | invalidToken
  | alreadyVerified
  | okVerified (user : List (String × JVal))
  | serverError
deriving DecidableEq

/-- POST /verify-email. -/
def verifyEmail (s : St) (now : Nat) (token : Option Jwt) :
    VerifyEmailRes × St :=
  match token with
  | none => (.missingToken, s)
  | some tok =>
    match verifyJwt tok .access now with
    | .expiredTok => (.expiredLink, s)
    | .invalidTok => (.serverError, s)
    | .ok decoded =>
      match findUserByEmail s decoded.email with
      | none => (.invalidToken, s)
      | some user =>
        if user.isVerified then (.alreadyVerified, s)
        else if user.verificationToken != some tok then (.invalidToken, s)
        else (.okVerified (verifyEmailProjection user),
              updateUserVerified s now user.id)

/-- Caller-visible outcome of GET /me (src/unnamed/part_001). -/
inductive MeRes
  | unauthenticated
  | okUser (user : Option (List (String × JVal)))
deriving DecidableEq

/-- GET /me: serializes the found user instance with
`User.prototype.toJSON` (a missing row yields `user: null`, still 200). -/
def me (s : St) (userId : Option Nat) : MeRes :=
  match userId with
  | none => .unauthenticated
  | some uid => .okUser ((findUserById s uid).map toJSON)

/-!
Interleaving semantics for POST /refresh-token.

Each `await` of a store call is a suspension point: other requests may run
between the resolution of one store call and the issuing of the next.  A
refresh request is therefore a small program whose atomic actions are its
store calls; `rstep` executes one such action.  Pure work (the expiry
comparison, `jwt.verify`) is folded into the adjacent store action, which
only coarsens the interleavings and so never invents behaviours the source
lacks.  `failRevoke` injects a store-layer fault at the final
`savedToken.update({ isRevoked: true })` call: the rejection is caught by
the handler's catch block and answered with the generic 500, with no
compensation of the already-persisted `RefreshToken.create`.
-/

/-- The program counter of an in-flight refresh request, carrying the
values read so far (`savedToken` row, decoded claims, user, fresh token
pair). -/
inductive RPhase
  | atStart
  | atRevokeExpired (row : RTRow)
  | atFindUser (row : RTRow) (decoded : Jwt)
  | atCreate (row : RTRow) (user : UserRec)
  | atRevokeOld (row : RTRow) (toks : TokPair)
  | finished (res : RefreshRes)
deriving DecidableEq

/-- An in-flight refresh request. -/
structure RefreshReq where
  now : Nat
  cookie : Option Jwt
  failRevoke : Bool
  phase : RPhase
deriving DecidableEq

/-- Execute the next atomic store action of request `r` against store `s`.
A finished request is left untouched. -/
def rstep (s : St) (r : RefreshReq) : St × RefreshReq :=
  match r.phase with
  | .finished _ => (s, r)
  | .atStart =>
    match r.cookie with
    | none => (s, { r with phase := .finished .missing })
    | some tok =>
      match findActiveRefreshToken s tok with
      | none => (s, { r with phase := .finished .invalid })
      | some row =>
        if row.expiresAt < r.now then
          (s, { r with phase := .atRevokeExpired row })
        else
          match verifyJwt tok .refreshSecret r.now with
          | .expiredTok => (s, { r with phase := .finished .expired })
          | .invalidTok => (s, { r with phase := .finished .serverError })
          | .ok decoded => (s, { r with phase := .atFindUser row decoded })
  | .atRevokeExpired row =>
    (revokeRefreshToken s r.now row.token,
     { r with phase := .finished .expired })
  | .atFindUser row decoded =>
    match s.users.find? (fun u => decoded.userId == some u.id) with
    | none => (s, { r with phase := .finished .userNotFound })
    | some user => (s, { r with phase := .atCreate row user })
  | .atCreate row user =>
    match generateTokens s r.now user with
    | none => (s, { r with phase := .finished .serverError })
    | some (toks, s1) => (s1, { r with phase := .atRevokeOld row toks })
  | .atRevokeOld row toks =>
    if r.failRevoke then (s, { r with phase := .finished .serverError })
    else
      (revokeRefreshToken s r.now row.token,
       { r with phase :=
           .finished (.success toks.accessToken toks.refreshToken) })

/-- Run two concurrent refresh requests under a schedule: `true` steps
request `a`, `false` steps request `b`. -/
def runSched (s : St) (a b : RefreshReq) :
    List Bool → St × RefreshReq × RefreshReq
  | [] => (s, a, b)
  | true :: rest =>
    let p := rstep s a
    runSched p.1 p.2 b rest
  | false :: rest =>
    let p := rstep s b
    runSched p.1 a p.2 rest

/-- Run a single refresh request for `n` atomic steps. -/
def runAlone (s : St) (r : RefreshReq) : Nat → St × RefreshReq
  | 0 => (s, r)
  | n + 1 =>
    let p := rstep s r
    runAlone p.1 p.2 n

/-- Did the request finish with a 200? -/
def isSuccessPhase : RPhase → Bool
  | .finished (.success _ _) => true
  | _ => false

/-!  Invariant used by the rotation claims. -/

/-- Token string `t` has a stored row, and every stored row holding `t`
is revoked: `t` can never again be redeemed. -/
def tokenFullyRevoked (s : St) (t : Jwt) : Bool :=
  s.tokens.any (fun r => r.token == t) &&
    s.tokens.all (fun r => !(r.token == t) || r.isRevoked)

/-- Every stored user password is a bcrypt digest. -/
def allPasswordsHashed (s : St) : Bool :=
  s.users.all (fun u =>
    match u.password with | .hashed _ => true | .plain _ => false)

/-!  Concrete fixtures used by witnesses and counterexamples. -/

/-- A verified user. -/
def exUser : UserRec :=
  { id := 1, name := "Ann", surname := "Lee",
    personalIdCode := "12345678901", email := "a@b.c",
    password := bcryptHash "Passw0rd!", isVerified := true,
    verificationToken := none, createdAt := 0, updatedAt := 0 }

/-- The refresh token issued to `exUser` at login time 0. -/
def exT1 : Jwt := signJwt (some 1) "a@b.c" .refreshSecret refreshLifetime 0

/-- The active stored row for `exT1`. -/
def exRow : RTRow :=
  { token := exT1, userId := 1, expiresAt := refreshLifetime,
    isRevoked := false, createdAt := 0, updatedAt := 0 }

/-- Store with one verified user and one active refresh token. -/
def exS0 : St := { users := [exUser], tokens := [exRow] }

/-- The store after a successful sequential `refresh exS0 5 (some exT1)`. -/
def exS5 : St := (refresh exS0 5 (some exT1)).2

/-- The empty store. -/
def exEmptySt : St := { users := [], tokens := [] }

/-- An expired and already-revoked stored row for `exT1`. -/
def exRevRow : RTRow :=
  { token := exT1, userId := 1, expiresAt := 3, isRevoked := true,
    createdAt := 0, updatedAt := 0 }

/-- Store whose only `exT1` row is expired and already revoked. -/
def exRevSt : St := { users := [exUser], tokens := [exRevRow] }

/-- A password-reset action token for `exUser`, issued at time 0. -/
def exResetTok : Jwt := signJwt (some 1) "a@b.c" .access actionLifetime 0

/-- `exUser` with the pending reset token in the shared slot. -/
def exUserR : UserRec := { exUser with verificationToken := some exResetTok }

/-- Store with a user mid password-reset. -/
def exSR : St := { users := [exUserR], tokens := [] }

/-- The verification token stored for the unverified user, issued at
time 5. -/
def exPrevTok : Jwt := signJwt none "a@b.c" .access actionLifetime 5

/-- An unverified user holding `exPrevTok`. -/
def exUnverUser : UserRec :=
  { id := 1, name := "Ann", surname := "Lee",
    personalIdCode := "12345678901", email := "a@b.c",
    password := bcryptHash "Passw0rd!", isVerified := false,
    verificationToken := some exPrevTok, createdAt := 5, updatedAt := 5 }

/-- Store with one unverified user awaiting verification. -/
def exUnverSt : St := { users := [exUnverUser], tokens := [] }

/-- Refresh request A of the concurrent scenario (read at time 10). -/
def exReqA : RefreshReq :=
  { now := 10, cookie := some exT1, failRevoke := false, phase := .atStart }

/-- Refresh request B of the concurrent scenario (read at time 11). -/
def exReqB : RefreshReq :=
  { now := 11, cookie := some exT1, failRevoke := false, phase := .atStart }

/-- Both requests read the active row before either revokes it, then each
runs to completion. -/
def exSched : List Bool :=
  [true, false, true, true, true, false, false, false]

/-- A refresh request whose final revocation write faults. -/
def exReqF : RefreshReq :=
  { now := 10, cookie := some exT1, failRevoke := true, phase := .atStart }

/-- An expired but still-active stored row for `exT1`. -/
def exExpRow : RTRow :=
  { token := exT1, userId := 1, expiresAt := 3, isRevoked := false,
    createdAt := 0, updatedAt := 0 }

/-- Store whose only `exT1` row is expired and still active. -/
def exExpSt : St := { users := [exUser], tokens := [exExpRow] }

/-- The user created by a fresh signup at time 5. -/
def exNewUser : UserRec :=
  { id := 1, name := "Ann", surname := "Lee",
    personalIdCode := "12345678901", email := "a@b.c",
    password := bcryptHash "Passw0rd!", isVerified := false,
    verificationToken := some (signJwt none "a@b.c" .access actionLifetime 5),
    createdAt := 5, updatedAt := 5 }

/-- The store after that fresh signup. -/
def exSA : St :=
  (signup exEmptySt 5 "a@b.c" "Passw0rd!" "Ann" "Lee" "12345678901" true).2

end Rpk

namespace Rpk

/-! ## Helper lemmas -/

theorem refresh_none (s : St) (now : Nat) : refresh s now none = (.missing, s) := rfl

theorem refresh_some_eq (s : St) (now : Nat) (t : Jwt) :
    refresh s now (some t) =
      match findActiveRefreshToken s t with
      | none => (.invalid, s)
      | some savedToken =>
        if savedToken.expiresAt < now then (.expired, revokeRefreshToken s now t)
        else
          match verifyJwt t .refreshSecret now with
          | .expiredTok => (.expired, s)
          | .invalidTok => (.serverError, s)
          | .ok decoded =>
            match s.users.find? (fun u => decoded.userId == some u.id) with
            | none => (.userNotFound, s)
            | some user =>
              match generateTokens s now user with
              | none => (.serverError, s)
              | some (toks, s1) =>
                (.success toks.accessToken toks.refreshToken, revokeRefreshToken s1 now t) := rfl

theorem mem_of_findActive {s : St} {t : Jwt} {row : RTRow}
    (h : findActiveRefreshToken s t = some row) :
    row ∈ s.tokens ∧ row.token = t ∧ row.isRevoked = false := by
  have hmem := List.mem_of_find?_eq_some h
  have hp := List.find?_some h
  simp only [Bool.and_eq_true, beq_iff_eq, Bool.not_eq_true'] at hp
  exact ⟨hmem, hp.1, hp.2⟩

theorem findActive_none_of_fullyRevoked {s : St} {t : Jwt}
    (h : tokenFullyRevoked s t = true) :
    findActiveRefreshToken s t = none := by
  unfold tokenFullyRevoked at h
  rw [Bool.and_eq_true] at h
  have hall := List.all_eq_true.mp h.2
  unfold findActiveRefreshToken
  rw [List.find?_eq_none]
  intro r hr
  have hor := hall r hr
  cases hb : (r.token == t) with
  | false => simp [hb]
  | true =>
    rw [hb] at hor
    simp only [Bool.not_true, Bool.false_or] at hor
    simp [hb, hor]

theorem refresh_invalid_of_fullyRevoked (s : St) (now : Nat) (t : Jwt)
    (h : tokenFullyRevoked s t = true) :
    refresh s now (some t) = (.invalid, s) := by
  rw [refresh_some_eq, findActive_none_of_fullyRevoked h]

theorem fullyRevoked_revoke_self (s : St) (now : Nat) (t : Jwt)
    (hex : s.tokens.any (fun r => r.token == t) = true) :
    tokenFullyRevoked (revokeRefreshToken s now t) t = true := by
  unfold tokenFullyRevoked revokeRefreshToken
  rw [Bool.and_eq_true]
  constructor
  · rw [List.any_eq_true] at hex ⊢
    obtain ⟨r, hr, hrt⟩ := hex
    refine ⟨if r.token == t then { r with isRevoked := true, updatedAt := now }
            else r, List.mem_map.mpr ⟨r, hr, rfl⟩, ?_⟩
    simp [hrt]
  · rw [List.all_eq_true]
    intro x hx
    rw [List.mem_map] at hx
    obtain ⟨r, _, rfl⟩ := hx
    cases hrt : (r.token == t) with
    | true => simp [hrt]
    | false => simp [hrt]

theorem fullyRevoked_revoke_any (s : St) (now : Nat) (t1 t : Jwt)
    (h : tokenFullyRevoked s t1 = true) :
    tokenFullyRevoked (revokeRefreshToken s now t) t1 = true := by
  unfold tokenFullyRevoked at h ⊢
  rw [Bool.and_eq_true] at h ⊢
  obtain ⟨hany, hall⟩ := h
  have hall' := List.all_eq_true.mp hall
  constructor
  · rw [List.any_eq_true] at hany ⊢
    obtain ⟨r, hr, hrt⟩ := hany
    unfold revokeRefreshToken
    refine ⟨if r.token == t then { r with isRevoked := true, updatedAt := now }
            else r, List.mem_map.mpr ⟨r, hr, rfl⟩, ?_⟩
    split
    · exact hrt
    · exact hrt
  · rw [List.all_eq_true]
    intro x hx
    unfold revokeRefreshToken at hx
    rw [List.mem_map] at hx
    obtain ⟨r, hr, rfl⟩ := hx
    have hor := hall' r hr
    split
    · simp
    · exact hor

theorem fullyRevoked_append (s : St) (t1 : Jwt) (row : RTRow)
    (h : tokenFullyRevoked s t1 = true) (hne : (row.token == t1) = false) :
    tokenFullyRevoked { s with tokens := s.tokens ++ [row] } t1 = true := by
  unfold tokenFullyRevoked at h ⊢
  rw [Bool.and_eq_true] at h ⊢
  obtain ⟨hany, hall⟩ := h
  constructor
  · rw [List.any_eq_true] at hany ⊢
    obtain ⟨r, hr, hrt⟩ := hany
    exact ⟨r, List.mem_append_left _ hr, hrt⟩
  · rw [List.all_eq_true] at hall ⊢
    intro x hx
    rcases List.mem_append.mp hx with hx | hx
    · exact hall x hx
    · rw [List.mem_singleton] at hx
      subst hx
      simp [hne]

theorem verifyJwt_ok_eq {t : Jwt} {sec : Secret} {now : Nat} {d : Jwt}
    (h : verifyJwt t sec now = .ok d) : d = t := by
  unfold verifyJwt at h
  split at h
  · cases h
  · split at h
    · cases h
    · cases h; rfl

theorem generateTokens_inv {s : St} {now : Nat} {u : UserRec}
    {toks : TokPair} {s1 : St}
    (h : generateTokens s now u = some (toks, s1)) :
    toks.refreshToken =
      signJwt (some u.id) u.email .refreshSecret refreshLifetime now ∧
    toks.accessToken = signJwt (some u.id) u.email .access accessLifetime now ∧
    s.tokens.any (fun r => r.token == toks.refreshToken) = false ∧
    s1 = { s with tokens := s.tokens ++
      [{ token := toks.refreshToken, userId := u.id,
         expiresAt := now + refreshLifetime, isRevoked := false,
         createdAt := now, updatedAt := now }] } := by
  cases hany : s.tokens.any (fun r =>
      r.token == signJwt (some u.id) u.email .refreshSecret refreshLifetime now)
    with
  | true =>
    exfalso
    have hnone : generateTokens s now u = none := by
      simp [generateTokens, createRefreshToken, hany]
    rw [hnone] at h
    cases h
  | false =>
    have hg : generateTokens s now u = some
        (⟨signJwt (some u.id) u.email .access accessLifetime now,
          signJwt (some u.id) u.email .refreshSecret refreshLifetime now⟩,
         { s with tokens := s.tokens ++
           [{ token := signJwt (some u.id) u.email .refreshSecret
                refreshLifetime now,
              userId := u.id, expiresAt := now + refreshLifetime,
              isRevoked := false, createdAt := now, updatedAt := now }] }) := by
      simp [generateTokens, createRefreshToken, hany]
    rw [hg] at h
    simp only [Option.some.injEq, Prod.mk.injEq] at h
    obtain ⟨htoks, hs1⟩ := h
    subst htoks
    exact ⟨rfl, rfl, hany, hs1.symm⟩

theorem refresh_preserves_fullyRevoked (t1 : Jwt) (s : St) (now : Nat)
    (c : Option Jwt) (h : tokenFullyRevoked s t1 = true) :
    tokenFullyRevoked (refresh s now c).2 t1 = true := by
  cases c with
  | none => exact h
  | some tok =>
    rw [refresh_some_eq]
    split
    · exact h
    · split
      · exact fullyRevoked_revoke_any s now t1 tok h
      · split
        · exact h
        · exact h
        · split
          · exact h
          · split
            · exact h
            · rename_i user p toks s1 hg
              obtain ⟨hrt, hat, hany, hs1⟩ := generateTokens_inv hg
              apply fullyRevoked_revoke_any
              rw [hs1]
              apply fullyRevoked_append _ _ _ h
              cases hb : (toks.refreshToken == t1) with
              | false => rfl
              | true =>
                exfalso
                have ht1 := h
                unfold tokenFullyRevoked at ht1
                rw [Bool.and_eq_true] at ht1
                rw [List.any_eq_true] at ht1
                obtain ⟨⟨r, hr, hrteq⟩, _⟩ := ht1
                have hc : s.tokens.any
                    (fun r => r.token == toks.refreshToken) = true := by
                  rw [List.any_eq_true]
                  refine ⟨r, hr, ?_⟩
                  rw [beq_iff_eq] at hrteq hb ⊢
                  rw [hrteq, hb]
                rw [hc] at hany
                cases hany

/-- A token signed fresh (absent from every stored row) differs from any
token that does have a stored row. -/
theorem fresh_token_ne_of_any_false {s : St} {rt t1 : Jwt} {r : RTRow}
    (hany : s.tokens.any (fun x => x.token == rt) = false)
    (hr : r ∈ s.tokens) (hrt : r.token = t1) : (rt == t1) = false := by
  cases hb : (rt == t1) with
  | false => rfl
  | true =>
    exfalso
    have hc : s.tokens.any (fun x => x.token == rt) = true := by
      rw [List.any_eq_true]
      refine ⟨r, hr, ?_⟩
      rw [beq_iff_eq] at hb ⊢
      rw [hrt, hb]
    rw [hc] at hany
    cases hany

/-- Claim C2: a successful sequential `refresh(T1)` revokes the stored row
for T1 while creating a new (distinct, active) refresh-token row, and every
subsequent `refresh(T1)` fails with InvalidTokenError because the
active-row lookup (requiring `isRevoked = false`) finds nothing; the
exhausted state of T1 is moreover preserved by any further refresh call. -/
theorem refresh_rotation_single_use
    (s : St) (now : Nat) (t1 a c : Jwt) (s' : St)
    (hsucc : refresh s now (some t1) = (.success a c, s')) :
    tokenFullyRevoked s' t1 = true ∧
    (∃ r, r ∈ s'.tokens ∧ r.token = c ∧ r.isRevoked = false ∧ r ∉ s.tokens) ∧
    (∀ now2, refresh s' now2 (some t1) = (.invalid, s')) ∧
    (∀ s2, tokenFullyRevoked s2 t1 = true →
      (∀ now2, refresh s2 now2 (some t1) = (.invalid, s2)) ∧
      (∀ now2 c2, tokenFullyRevoked (refresh s2 now2 c2).2 t1 = true)) := by
  rw [refresh_some_eq] at hsucc
  split at hsucc
  · simp at hsucc
  · rename_i row hf
    split at hsucc
    · simp at hsucc
    · split at hsucc
      · simp at hsucc
      · simp at hsucc
      · split at hsucc
        · simp at hsucc
        · split at hsucc
          · simp at hsucc
          · rename_i usr h1x h2x toks s1 hg
            obtain ⟨hrt, hat, hany, hs1⟩ := generateTokens_inv hg
            rw [Prod.mk.injEq] at hsucc
            obtain ⟨hres, hst⟩ := hsucc
            injection hres with ha hc
            subst ha
            subst hc
            subst hst
            obtain ⟨hmem, hrowt, hrowrev⟩ := mem_of_findActive hf
            have hne : (toks.refreshToken == t1) = false :=
              fresh_token_ne_of_any_false hany hmem hrowt
            have hmem1 : row ∈ s1.tokens := by
              rw [hs1]
              exact List.mem_append_left _ hmem
            have h1 : tokenFullyRevoked (revokeRefreshToken s1 now t1) t1
                = true := by
              apply fullyRevoked_revoke_self
              rw [List.any_eq_true]
              exact ⟨row, hmem1, by rw [beq_iff_eq]; exact hrowt⟩
            refine ⟨h1, ?_, ?_, ?_⟩
            · refine ⟨{ token := toks.refreshToken, userId := usr.id,
                        expiresAt := now + refreshLifetime, isRevoked := false,
                        createdAt := now, updatedAt := now }, ?_, rfl, rfl, ?_⟩
              · unfold revokeRefreshToken
                rw [List.mem_map]
                refine ⟨{ token := toks.refreshToken, userId := usr.id,
                          expiresAt := now + refreshLifetime,
                          isRevoked := false,
                          createdAt := now, updatedAt := now }, ?_, ?_⟩
                · rw [hs1]
                  exact List.mem_append_right _ (List.mem_singleton.mpr rfl)
                · simp [hne]
              · intro hmemS
                have hc : s.tokens.any
                    (fun x => x.token == toks.refreshToken) = true := by
                  rw [List.any_eq_true]
                  exact ⟨_, hmemS, by rw [beq_iff_eq]⟩
                rw [hc] at hany
                cases hany
            · intro now2
              exact refresh_invalid_of_fullyRevoked _ now2 t1 h1
            · intro s2 h2
              exact ⟨fun now2 => refresh_invalid_of_fullyRevoked s2 now2 t1 h2,
                     fun now2 c2 =>
                       refresh_preserves_fullyRevoked t1 s2 now2 c2 h2⟩

end Rpk

namespace Rpk

/-- Claim C2 witness: the rotation theorem applied to a concrete store with
one verified user and one active refresh token, refreshed at time 5. -/
theorem refresh_rotation_single_use_witness :
    tokenFullyRevoked exS5 exT1 = true ∧
    refresh exS5 7 (some exT1) = (.invalid, exS5) := by
  have h := refresh_rotation_single_use exS0 5 exT1
    (signJwt (some 1) "a@b.c" .access accessLifetime 5)
    (signJwt (some 1) "a@b.c" .refreshSecret refreshLifetime 5)
    exS5 (by decide)
  exact ⟨h.1, (h.2.2.1) 7⟩

/-- Claim C1: the handler's find-then-revoke rotation is not atomic — under
the interleaving in which both concurrent refresh(T1) requests perform
their active-row lookup before either revocation write, BOTH requests
succeed with a 200, redeeming the same stored token twice (the claim
requires exactly one success and one InvalidTokenError). -/
theorem concurrent_refresh_double_redeem :
    (runSched exS0 exReqA exReqB exSched).2.1.phase =
      .finished (.success (signJwt (some 1) "a@b.c" .access accessLifetime 10)
        (signJwt (some 1) "a@b.c" .refreshSecret refreshLifetime 10)) ∧
    (runSched exS0 exReqA exReqB exSched).2.2.phase =
      .finished (.success (signJwt (some 1) "a@b.c" .access accessLifetime 11)
        (signJwt (some 1) "a@b.c" .refreshSecret refreshLifetime 11)) ∧
    isSuccessPhase (runSched exS0 exReqA exReqB exSched).2.1.phase = true ∧
    isSuccessPhase (runSched exS0 exReqA exReqB exSched).2.2.phase = true := by
  decide

/-- Claim C3: rotation is not transactional — when the store write that
revokes the presented row faults (after `generateTokens` has persisted the
new row), the request answers 500 yet the new refresh-token row remains
persisted while the presented token's row is still unrevoked. -/
theorem refresh_revoke_fault_partial_state :
    (runAlone exS0 exReqF 4).2.phase = .finished .serverError ∧
    (runAlone exS0 exReqF 4).1.tokens.any (fun r =>
      r.token == signJwt (some 1) "a@b.c" .refreshSecret refreshLifetime 10 &&
      !r.isRevoked) = true ∧
    (runAlone exS0 exReqF 4).1.tokens.any (fun r =>
      r.token == exT1 && !r.isRevoked) = true := by
  decide

/-- Claim C6 counterexample: a stored refresh-token row whose `expiresAt`
lies in the past but which is already revoked makes refresh fail with
InvalidTokenError, not ExpiredTokenError. -/
theorem refresh_expired_revoked_row_not_expired_error :
    exRevRow ∈ exRevSt.tokens ∧ exRevRow.token = exT1 ∧
    exRevRow.expiresAt < 5 ∧
    refresh exRevSt 5 (some exT1) = (.invalid, exRevSt) := by
  decide

/-- Claim C6 (amended): for every stored refresh-token row that is still
active (`isRevoked = false`) and whose `expiresAt` lies in the past,
refresh fails with ExpiredTokenError and lazily revokes the row; the
outcome is the same for every user table (no user lookup or signature
verification is consulted). -/
theorem refresh_active_expired_lazily_revoked
    (s : St) (now : Nat) (t : Jwt) (row : RTRow)
    (hfind : findActiveRefreshToken s t = some row)
    (hexp : row.expiresAt < now) :
    refresh s now (some t) = (.expired, revokeRefreshToken s now t) ∧
    tokenFullyRevoked (revokeRefreshToken s now t) t = true ∧
    (∀ us : List UserRec,
      refresh { users := us, tokens := s.tokens } now (some t) =
        (.expired,
         revokeRefreshToken { users := us, tokens := s.tokens } now t)) := by
  obtain ⟨hmem, hrowt, _⟩ := mem_of_findActive hfind
  refine ⟨?_, ?_, ?_⟩
  · rw [refresh_some_eq, hfind]
    exact if_pos hexp
  · apply fullyRevoked_revoke_self
    rw [List.any_eq_true]
    exact ⟨row, hmem, by rw [beq_iff_eq]; exact hrowt⟩
  · intro us
    have hfind2 : findActiveRefreshToken { users := us, tokens := s.tokens } t
        = some row := hfind
    rw [refresh_some_eq, hfind2]
    exact if_pos hexp

/-- Claim C6 witness: the amended theorem applied to a store holding an
active row for `exT1` that expired at time 3, presented at time 5. -/
theorem refresh_active_expired_lazily_revoked_witness :
    refresh exExpSt 5 (some exT1) =
      (.expired, revokeRefreshToken exExpSt 5 exT1) ∧
    tokenFullyRevoked (revokeRefreshToken exExpSt 5 exT1) exT1 = true := by
  have h := refresh_active_expired_lazily_revoked exExpSt 5 exT1 exExpRow
    (by decide) (by decide)
  exact ⟨h.1, h.2.1⟩

/-- Claim C7: login against a stored unverified user fails with
UnverifiedAccountError for every presented password (the verification check
precedes the bcrypt comparison), so the outcome is identical for all
passwords and reveals nothing about password correctness. -/
theorem login_unverified_always_unverified_error
    (s : St) (now : Nat) (e : String) (u : UserRec)
    (hfind : findUserByEmail s e = some u) (hunv : u.isVerified = false) :
    (∀ pw, login s now e pw = (.unverified, s)) ∧
    (∀ pw pw2, login s now e pw = login s now e pw2) := by
  have h1 : ∀ pw, login s now e pw = (.unverified, s) := by
    intro pw
    unfold login
    rw [hfind]
    simp [hunv]
  exact ⟨h1, fun pw pw2 => by rw [h1 pw, h1 pw2]⟩

/-- Claim C7 witness: login with the unverified fixture user fails with
UnverifiedAccountError both for the correct password and a wrong one. -/
theorem login_unverified_always_unverified_error_witness :
    login exUnverSt 9 "a@b.c" "Passw0rd!" = (.unverified, exUnverSt) ∧
    login exUnverSt 9 "a@b.c" "nope" = (.unverified, exUnverSt) := by
  have h := login_unverified_always_unverified_error exUnverSt 9 "a@b.c"
    exUnverUser (by decide) rfl
  exact ⟨h.1 "Passw0rd!", h.1 "nope"⟩

/-- Claim C4 counterexample: the caller-visible result of forgotPassword
does depend on account existence — 400 and `success: false` when no user
holds the email, 200 and `success: true` when one does. -/
theorem forgot_response_reveals_existence :
    (forgotPassword exEmptySt 5 "a@b.c" true).1.status = 400 ∧
    (forgotPassword exEmptySt 5 "a@b.c" true).1.success = false ∧
    (forgotPassword exS0 5 "a@b.c" true).1.status = 200 ∧
    (forgotPassword exS0 5 "a@b.c" true).1.success = true := by
  decide

/-- Claim C4 (amended): forgotPassword sends the same generic message
whether or not the email exists (when the notifier succeeds), but the
status code and success flag reveal existence: 200/true exactly when a
user with the email exists, 400/false exactly when none does. -/
theorem forgot_generic_message_status_reveals
    (s : St) (now : Nat) (e : String) :
    (forgotPassword s now e true).1.message = forgotGenericMsg ∧
    (((forgotPassword s now e true).1.status = 200 ∧
      (forgotPassword s now e true).1.success = true) ↔
        (findUserByEmail s e).isSome = true) ∧
    (((forgotPassword s now e true).1.status = 400 ∧
      (forgotPassword s now e true).1.success = false) ↔
        (findUserByEmail s e).isNone = true) := by
  cases hf : findUserByEmail s e with
  | none => simp [forgotPassword, hf]
  | some u => simp [forgotPassword, hf]

end Rpk

namespace Rpk

/-- Claim C8 counterexample: JWT signing is deterministic, so re-signing-up
the unverified email in the same second as the stored token's issuance
writes back a token identical to the previously stored one — the reissued
token is not distinct. -/
theorem signup_reissue_same_second_not_distinct :
    signJwt none "a@b.c" .access actionLifetime 5 = exPrevTok ∧
    (signup exUnverSt 5 "a@b.c" "Passw0rd!" "Ann" "Lee" "12345678901" true).1
      = .resentVerification (signupProjection exUnverUser) ∧
    (signup exUnverSt 5 "a@b.c" "Passw0rd!" "Ann" "Lee" "12345678901" true).2
      = exUnverSt := by
  decide

/-- Claim C8 (amended): re-signing-up an existing unverified email never
creates a second User row and always persists a freshly issued 1-hour
action token into the existing user's `verificationToken` slot; the
reissued token is distinct from the previously stored one whenever it is
issued at a different timestamp (deterministic signing reproduces the
stored token when reissued in the same second with the same payload). -/
theorem signup_unverified_reissue
    (s : St) (now : Nat) (e pw n sn pid : String) (ok : Bool) (u : UserRec)
    (hfind : findUserByEmail s e = some u) (hunv : u.isVerified = false) :
    ((signup s now e pw n sn pid ok).2.users.map (fun v => v.id) =
       s.users.map (fun v => v.id)) ∧
    ((signup s now e pw n sn pid ok).2 =
       updateUserVerificationToken s now u.id
         (some (signJwt none e .access actionLifetime now))) ∧
    (∃ v ∈ (signup s now e pw n sn pid ok).2.users,
       v.id = u.id ∧
       v.verificationToken = some (signJwt none e .access actionLifetime now) ∧
       (signJwt none e .access actionLifetime now).exp =
         (signJwt none e .access actionLifetime now).iat + 3600) ∧
    (∀ prev, u.verificationToken = some prev → prev.iat ≠ now →
       signJwt none e .access actionLifetime now ≠ prev) := by
  have humem : u ∈ s.users := List.mem_of_find?_eq_some hfind
  have hstate : (signup s now e pw n sn pid ok).2 =
      updateUserVerificationToken s now u.id
        (some (signJwt none e .access actionLifetime now)) := by
    unfold signup
    rw [hfind]
    cases ok <;> simp [hunv]
  refine ⟨?_, hstate, ?_, ?_⟩
  · rw [hstate]
    unfold updateUserVerificationToken
    simp only [List.map_map]
    apply List.map_congr_left
    intro v hv
    simp only [Function.comp]
    split <;> rfl
  · rw [hstate]
    unfold updateUserVerificationToken
    refine ⟨{ u with verificationToken := some (signJwt none e .access actionLifetime now), updatedAt := now }, ?_, rfl, rfl, rfl⟩
    rw [List.mem_map]
    exact ⟨u, humem, by simp⟩
  · intro prev hprev hne heq
    exact hne (congrArg Jwt.iat heq).symm

/-- Claim C8 witness: the amended theorem at the concrete unverified user,
re-signed-up at time 9 while the stored token was issued at time 5: no
second row, a fresh token written, and the fresh token differs from the
stored one. -/
theorem signup_unverified_reissue_witness :
    ((signup exUnverSt 9 "a@b.c" "Passw0rd!" "Ann" "Lee" "12345678901"
        true).2.users.map (fun v => v.id) =
      exUnverSt.users.map (fun v => v.id)) ∧
    signJwt none "a@b.c" .access actionLifetime 9 ≠ exPrevTok := by
  have h := signup_unverified_reissue exUnverSt 9 "a@b.c" "Passw0rd!" "Ann"
    "Lee" "12345678901" true exUnverUser (by decide) rfl
  exact ⟨h.1, h.2.2.2 exPrevTok rfl (by decide)⟩

/-- The body of resetPassword once both fields are present. -/
theorem resetPassword_some_eq (s : St) (now : Nat) (tok : Jwt) (pw : String)
    (okN : Bool) :
    resetPassword s now (some tok) (some pw) okN =
      match verifyJwt tok .access now with
      | .expiredTok => (⟨400, false, "Password reset link has expired"⟩, s)
      | .invalidTok => (⟨500, false, "Error resetting password"⟩, s)
      | .ok decoded =>
        match s.users.find? (fun u =>
            u.email == decoded.email && u.verificationToken == some tok) with
        | none =>
          (⟨400, false, "Invalid or expired password reset link"⟩, s)
        | some user =>
          if !passwordPolicyOk pw then
            (⟨500, false, "Error resetting password"⟩, s)
          else if !okN then
            (⟨500, false, "Error resetting password"⟩,
             updateUserPasswordAndClearToken s now user.id pw)
          else
            (⟨200, true, "Password has been reset successfully"⟩,
             updateUserPasswordAndClearToken s now user.id pw) := rfl

/-- The persisted state of resetPassword: either untouched, or the found
user's row updated with the hashed new password and a cleared token
slot. -/
theorem resetPassword_state (sB : St) (nowB : Nat) (tokB : Jwt)
    (pwB : String) (okB : Bool) :
    (resetPassword sB nowB (some tokB) (some pwB) okB).2 = sB ∨
    ∃ u2, sB.users.find? (fun w =>
        w.email == tokB.email && w.verificationToken == some tokB) = some u2 ∧
      (resetPassword sB nowB (some tokB) (some pwB) okB).2 =
        updateUserPasswordAndClearToken sB nowB u2.id pwB := by
  rw [resetPassword_some_eq]
  split
  · left; rfl
  · left; rfl
  · rename_i d hver
    have hd : d = tokB := verifyJwt_ok_eq hver
    subst hd
    split
    · left; rfl
    · rename_i u2 hfind2
      cases hpol : passwordPolicyOk pwB with
      | false => left; simp [hpol]
      | true =>
        right
        refine ⟨u2, hfind2, ?_⟩
        cases okB <;> simp [hpol]

/-- Claim C9: the password is write-hashed on every change before
persistence — the user row created by signup stores the bcrypt hash of the
submitted password, and every row of the post-reset store either predates
the reset or stores the bcrypt hash of the new password — and the
password field is absent from every externally-visible user
representation (signup, login and verify-email projections, and the
`toJSON` serialization used by GET /me). -/
theorem password_write_hashed_never_exposed
    (s sA : St) (now : Nat) (e pw n sn pid : String) (ok : Bool)
    (proj : List (String × JVal))
    (hcreate : signup s now e pw n sn pid ok = (.created proj, sA)) :
    (∃ v, sA.users = s.users ++ [v] ∧ v.password = bcryptHash pw) ∧
    (∀ (sB : St) (nowB : Nat) (tokB : Jwt) (pwB : String) (okB : Bool)
       (v : UserRec),
        v ∈ (resetPassword sB nowB (some tokB) (some pwB) okB).2.users →
        v ∈ sB.users ∨ v.password = bcryptHash pwB) ∧
    (∀ u : UserRec,
      "password" ∉ (signupProjection u).map Prod.fst ∧
      "password" ∉ (loginProjection u).map Prod.fst ∧
      "password" ∉ (verifyEmailProjection u).map Prod.fst ∧
      "password" ∉ (toJSON u).map Prod.fst) := by
  refine ⟨?_, ?_, ?_⟩
  · unfold signup at hcreate
    split at hcreate
    · split at hcreate
      · simp at hcreate
      · split at hcreate
        · simp at hcreate
        · simp at hcreate
    · split at hcreate
      · simp at hcreate
      · split at hcreate
        · simp at hcreate
        · split at hcreate
          · simp at hcreate
          · rw [Prod.mk.injEq] at hcreate
            obtain ⟨hres, hsA⟩ := hcreate
            exact ⟨{ id := nextUserId s, name := n, surname := sn, personalIdCode := pid, email := e, password := bcryptHash pw, isVerified := false, verificationToken := some (signJwt none e .access actionLifetime now), createdAt := now, updatedAt := now }, by rw [← hsA], rfl⟩
  · intro sB nowB tokB pwB okB v hv
    rcases resetPassword_state sB nowB tokB pwB okB with hst | ⟨u2, _, hst⟩
    · rw [hst] at hv
      exact Or.inl hv
    · rw [hst] at hv
      unfold updateUserPasswordAndClearToken at hv
      rw [List.mem_map] at hv
      obtain ⟨w, hw, rfl⟩ := hv
      split
      · right; rfl
      · left; exact hw
  · intro u
    refine ⟨?_, ?_, ?_, ?_⟩
    · show "password" ∉
        (["email", "name", "surname", "personalIdCode", "isVerified"] :
          List String)
      decide
    · show "password" ∉
        (["name", "surname", "personalIdCode", "email", "isVerified"] :
          List String)
      decide
    · show "password" ∉ (["email", "isVerified"] : List String)
      decide
    · show "password" ∉
        (["id", "name", "surname", "personalIdCode", "email", "isVerified",
          "verificationToken", "createdAt", "updatedAt"] : List String)
      decide

/-- Claim C9 witness: the theorem applied to a fresh signup into the empty
store, giving the hashed stored password and password-free projections. -/
theorem password_write_hashed_never_exposed_witness :
    (∃ v, exSA.users = exEmptySt.users ++ [v] ∧
      v.password = bcryptHash "Passw0rd!") ∧
    "password" ∉ (toJSON exUser).map Prod.fst := by
  have h := password_write_hashed_never_exposed exEmptySt exSA 5 "a@b.c"
    "Passw0rd!" "Ann" "Lee" "12345678901" true (signupProjection exNewUser)
    (by decide)
  exact ⟨h.1, (h.2.2 exUser).2.2.2⟩

/-- Claim C10: GET /me returns the stored user serialized with exactly one
field removed — `password` — so every other persisted field, including a
non-null `verificationToken`, is present in the response. -/
theorem me_serializes_all_but_password
    (s : St) (uid : Nat) (u : UserRec)
    (hfind : findUserById s uid = some u) :
    me s (some uid) = .okUser (some (toJSON u)) ∧
    (userGet u).map Prod.fst =
      ["id", "name", "surname", "personalIdCode", "email", "password",
       "isVerified", "verificationToken", "createdAt", "updatedAt"] ∧
    (toJSON u).map Prod.fst =
      ["id", "name", "surname", "personalIdCode", "email",
       "isVerified", "verificationToken", "createdAt", "updatedAt"] ∧
    (∀ t, u.verificationToken = some t →
      ("verificationToken", JVal.jwt t) ∈ toJSON u) := by
  have hme : me s (some uid) = .okUser ((findUserById s uid).map toJSON) := rfl
  refine ⟨?_, rfl, rfl, ?_⟩
  · rw [hme, hfind]
    rfl
  · intro t ht
    simp [toJSON, userGet, List.eraseP, ht]

/-- Claim C10 witness: the profile of the user holding a pending reset
token serializes every field but the password, including the stored
token. -/
theorem me_serializes_all_but_password_witness :
    me exSR (some 1) = .okUser (some (toJSON exUserR)) ∧
    ("verificationToken", JVal.jwt exResetTok) ∈ toJSON exUserR := by
  have h := me_serializes_all_but_password exSR 1 exUserR (by decide)
  exact ⟨h.1, h.2.2.2 exResetTok rfl⟩

/-- Claim C5 counterexample: a rejected notifier call during
forgotPassword, and during the confirmation step of resetPassword, is
surfaced to the caller as a 500 failure instead of the operation's success
result. -/
theorem notifier_failure_returns_error_status :
    (forgotPassword exS0 5 "a@b.c" false).1.status = 500 ∧
    (forgotPassword exS0 5 "a@b.c" false).1.success = false ∧
    (resetPassword exSR 5 (some exResetTok) (some "Newpass1!") false).1.status
      = 500 ∧
    (resetPassword exSR 5 (some exResetTok) (some "Newpass1!") false).1.success
      = false := by
  decide

/-- Claim C5 (amended): a rejected notifier call during forgotPassword and
during resetPassword's confirmation step is surfaced as a generic 500
error; the already-persisted updates are not rolled back — forgotPassword
keeps the fresh reset token in `verificationToken`, and resetPassword
(when the new password passes the password policy, so that `user.update`
itself succeeds) keeps the hashed new password with the token slot
cleared. -/
theorem notifier_failure_surfaced_no_rollback
    (s sB : St) (now nowB : Nat) (e : String) (u uB : UserRec)
    (tok : Jwt) (pw : String)
    (hfind : findUserByEmail s e = some u)
    (hsec : tok.secret = .access) (hexp : nowB < tok.exp)
    (hfindB : sB.users.find? (fun v =>
        v.email == tok.email && v.verificationToken == some tok) = some uB)
    (hpol : passwordPolicyOk pw = true) :
    (forgotPassword s now e false).1 =
      ⟨500, false, "Error processing password reset request"⟩ ∧
    (forgotPassword s now e false).2 =
      updateUserVerificationToken s now u.id
        (some (signJwt (some u.id) u.email .access actionLifetime now)) ∧
    (resetPassword sB nowB (some tok) (some pw) false).1 =
      ⟨500, false, "Error resetting password"⟩ ∧
    (resetPassword sB nowB (some tok) (some pw) false).2 =
      updateUserPasswordAndClearToken sB nowB uB.id pw ∧
    (∃ v ∈ (resetPassword sB nowB (some tok) (some pw) false).2.users,
       v.id = uB.id ∧ v.password = bcryptHash pw ∧
       v.verificationToken = none) := by
  have hver : verifyJwt tok .access nowB = .ok tok := by
    unfold verifyJwt
    rw [if_neg (by simp [hsec]), if_neg (not_le.mpr hexp)]
  have hforgot : forgotPassword s now e false =
      (⟨500, false, "Error processing password reset request"⟩,
       updateUserVerificationToken s now u.id
         (some (signJwt (some u.id) u.email .access actionLifetime now))) := by
    simp [forgotPassword, hfind]
  have hreset : resetPassword sB nowB (some tok) (some pw) false =
      (⟨500, false, "Error resetting password"⟩,
       updateUserPasswordAndClearToken sB nowB uB.id pw) := by
    simp [resetPassword, hver, hfindB, hpol]
  refine ⟨by rw [hforgot], by rw [hforgot], by rw [hreset], by rw [hreset],
          ?_⟩
  rw [hreset]
  have humem : uB ∈ sB.users := List.mem_of_find?_eq_some hfindB
  refine ⟨{ uB with password := bcryptHash pw, verificationToken := none, updatedAt := nowB }, ?_, rfl, rfl, rfl⟩
  unfold updateUserPasswordAndClearToken
  rw [List.mem_map]
  exact ⟨uB, humem, by simp⟩

/-- Claim C5 witness: the amended theorem at concrete stores — a user whose
forgot-password notification fails, and a user whose reset confirmation
fails after the password was updated. -/
theorem notifier_failure_surfaced_no_rollback_witness :
    (forgotPassword exS0 5 "a@b.c" false).1 =
      ⟨500, false, "Error processing password reset request"⟩ ∧
    (resetPassword exSR 5 (some exResetTok) (some "Newpass1!") false).1 =
      ⟨500, false, "Error resetting password"⟩ ∧
    (resetPassword exSR 5 (some exResetTok) (some "Newpass1!") false).2 =
      updateUserPasswordAndClearToken exSR 5 1 "Newpass1!" := by
  have h := notifier_failure_surfaced_no_rollback exS0 exSR 5 5 "a@b.c"
    exUser exUserR exResetTok "Newpass1!" (by decide) rfl (by decide)
    (by decide) (by decide)
  exact ⟨h.1, h.2.2.1, h.2.2.2.1⟩


end Rpk
